import Mathlib

/-
  Verification of the La Bamba Frisbee backend (backend/main.py).

  Shallow embedding conventions:
  - `time.time()` values are rationals (one clock reading per request, taken
    at the single `time.time()` call site in the code).
  - External SDK calls (Google Sheets read, GCS upload/list, credential
    parsing) are passed in as outcome parameters: the code only inspects
    their success value or the raised exception message.
  - Python truthiness of the strings read from the environment and of the
    cached dict is modelled explicitly where the code relies on it.
-/

/-- HTTP error raised via `HTTPException(status_code=..., detail=...)`. -/
structure HErr where
  status : Nat
  detail : String
deriving Repr, DecidableEq

/-- The registrations payload dict: headers / rows / count (main.py lines 142-147).
The stored dict always has these three keys, hence is always truthy in Python. -/
structure Payload where
  headers : List String
  rows : List (List String)
  count : Nat
deriving Repr, DecidableEq

/-- The module-level cache `_cache = {"t": 0.0, "data": None}` (main.py line 23). -/
structure Cache where
  t : ℚ
  data : Option Payload
deriving DecidableEq

/-- Initial cache state at process start. -/
def initCache : Cache := ⟨0, none⟩

/-- The TTL constant (main.py line 24: `TTL = 30`). Theorems below are stated
for an arbitrary positive ttl, matching the getOrRefresh contract of which
the code is the ttl = TTL instance. -/
def TTL : ℚ := 30

/-- Outcome of the upstream spreadsheet read
`sheets_service().spreadsheets().values().get(...).execute()` together with
`resp.get("values", [])`: either the values list or the raised exception
message (main.py lines 136-139). -/
inductive FetchOutcome
  | ok (values : List (List String))
  | err (msg : String)
deriving Repr, DecidableEq

/-- Normalization of the raw values list (main.py lines 142-147):
`if not values` takes the empty shape; otherwise first row becomes headers,
the remaining rows become rows, count is their number. -/
def normalizeValues : List (List String) → Payload
  | [] => ⟨[], [], 0⟩
  | h :: t => ⟨h, t, t.length⟩

/-- Result of one call to the `/api/registrations` handler: the HTTP-level
result, the cache state after the call, and whether the `try` block that
resolves credentials and contacts the spreadsheet service ran
(main.py lines 135-140). -/
structure RegResult where
  res : Except HErr Payload
  cache : Cache
  upstreamCalled : Bool

/-- The `/api/registrations` handler (main.py lines 126-151).
`now` is the value of `time.time()` at line 131. The cached-branch guard
`_cache["data"] and now - _cache["t"] < TTL` is modelled with `isSome`:
the stored value is always a three-key dict, which is truthy. On a miss the
upstream outcome `fetch` decides between the 502 error (cache untouched)
and the success path, which stores the normalized payload and `now`. -/
def registrations (sheetId : String) (ttl : ℚ) (now : ℚ) (fetch : FetchOutcome)
    (c : Cache) : RegResult :=
  if sheetId = "" then ⟨.ok ⟨[], [], 0⟩, c, false⟩
  else if c.data.isSome ∧ now - c.t < ttl then
    ⟨.ok (c.data.getD ⟨[], [], 0⟩), c, false⟩
  else
    match fetch with
    | .err e => ⟨.error ⟨502, "Sheets fetch failed: " ++ e⟩, c, true⟩
    | .ok values =>
        let out := normalizeValues values
        ⟨.ok out, ⟨now, some out⟩, true⟩

/-- Failure of `sheets_service` (main.py lines 92-116): either the exception
raised while materializing the chosen credential source, or the final
`RuntimeError("No Google credentials provided")`. -/
inductive CredError
  | parseFailure (msg : String)
  | noCredentials
deriving Repr, DecidableEq

/-- Python truthiness of `os.getenv(...)`: `None` and the empty string are
falsy, so a source is present iff the variable is set to a non-empty string. -/
def envPresent : Option String → Bool
  | none => false
  | some s => s ≠ ""

/-- The three credential environment variables read by `sheets_service`:
GOOGLE_APPLICATION_CREDENTIALS, GOOGLE_APPLICATION_CREDENTIALS_B64,
GOOGLE_APPLICATION_CREDENTIALS_JSON. -/
structure CredEnv where
  filePath : Option String
  b64 : Option String
  inlineJson : Option String

/-- Credential resolution (main.py lines 92-116). The three builders
`fromFile`, `fromB64`, `fromInline` stand for the SDK paths
`Credentials.from_service_account_file` resp. base64+JSON decode followed by
`from_service_account_info`, each returning a client of type `α` or raising.
The sources are checked in the fixed order file path, base64, inline JSON;
the first truthy one is used and its failure propagates; if none is truthy a
RuntimeError is raised. -/
def sheets_service {α : Type} (env : CredEnv)
    (fromFile : String → Except String α)
    (fromB64 : String → Except String α)
    (fromInline : String → Except String α) : Except CredError α :=
  if envPresent env.filePath then
    match fromFile (env.filePath.getD "") with
    | .ok c => .ok c
    | .error e => .error (.parseFailure e)
  else if envPresent env.b64 then
    match fromB64 (env.b64.getD "") with
    | .ok c => .ok c
    | .error e => .error (.parseFailure e)
  else if envPresent env.inlineJson then
    match fromInline (env.inlineJson.getD "") with
    | .ok c => .ok c
    | .error e => .error (.parseFailure e)
  else .error .noCredentials

/-- Success payload of `POST /api/photos`. -/
structure UploadOut where
  ok : Bool
  url : String
  key : String
deriving Repr, DecidableEq

/-- Result of one call to the upload handler: HTTP-level result plus whether
the storage SDK path (bucket/blob/upload) ran. -/
structure UploadResult where
  res : Except HErr UploadOut
  storageCalled : Bool

/-- Python `str.startswith`, modelled on the character sequence of the
string (a Python str is a sequence of characters). -/
def pyStartsWith (s pre : String) : Bool := pre.data.isPrefixOf s.data

/-- Python `str.endswith`, modelled on the character sequence of the string. -/
def pyEndsWith (s suf : String) : Bool := suf.data.isSuffixOf s.data

/-- Guard at main.py line 59: `not file.content_type or not
file.content_type.startswith("image/")` rejects a missing, empty, or
non-image content type. This function is true iff the upload is accepted. -/
def imageContentTypeOk : Option String → Bool
  | none => false
  | some s => s ≠ "" && pyStartsWith s "image/"

/-- The `POST /api/photos` handler (main.py lines 55-73). `key` stands for
the constructed storage key (date path + random hex + extension) and
`uploadOutcome` for the storage SDK calls, returning the public URL or the
raised exception message. The bucket check precedes the content-type check. -/
def upload_photo (bucketName : String) (contentType : Option String)
    (key : String) (uploadOutcome : Except String String) : UploadResult :=
  if bucketName = "" then ⟨.error ⟨500, "PHOTOS_BUCKET not set"⟩, false⟩
  else if !(imageContentTypeOk contentType) then
    ⟨.error ⟨400, "Only image uploads allowed"⟩, false⟩
  else
    match uploadOutcome with
    | .ok url => ⟨.ok ⟨true, url, key⟩, true⟩
    | .error e => ⟨.error ⟨500, "Upload failed: " ++ e⟩, true⟩

/-- Public URL built for a blob (main.py line 85). -/
def blobUrl (bucketName name : String) : String :=
  "https://storage.googleapis.com/" ++ bucketName ++ "/" ++ name

/-- The accumulation loop of `GET /api/photos` (main.py lines 82-87):
names ending in "/" are skipped; otherwise the URL is appended and the loop
breaks as soon as `len(urls) >= limit`. -/
def photosLoop (bucketName : String) (limit : Int) :
    List String → List String → List String
  | [], urls => urls
  | b :: bs, urls =>
    if pyEndsWith b "/" then photosLoop bucketName limit bs urls
    else
      let urls2 := urls ++ [blobUrl bucketName b]
      if limit ≤ (urls2.length : Int) then urls2
      else photosLoop bucketName limit bs urls2

/-- The `GET /api/photos` handler (main.py lines 75-90). `blobsOutcome` is
the outcome of `bucket.list_blobs(prefix="uploads/")`: the listed blob names
or the raised exception message. -/
def list_photos (bucketName : String) (limit : Int)
    (blobsOutcome : Except String (List String)) : Except HErr (List String) :=
  if bucketName = "" then .error ⟨500, "PHOTOS_BUCKET not set"⟩
  else
    match blobsOutcome with
    | .error e => .error ⟨500, "List failed: " ++ e⟩
    | .ok blobs => .ok (photosLoop bucketName limit blobs [])

/-- C1: for every ttl > 0, when a call to the fetch path succeeds with value
v and a second call arrives with elapsed time since the stored timestamp
strictly below ttl, the second call does not run the upstream block and
returns exactly the stored value v, leaving the cache unchanged. -/
theorem registrations_cached_second_call (sheetId : String) (ttl now1 now2 : ℚ)
    (fetch1 fetch2 : FetchOutcome) (c0 : Cache) (v : Payload)
    (hsid : sheetId ≠ "") (_hpos : 0 < ttl)
    (h1 : (registrations sheetId ttl now1 fetch1 c0).res = .ok v)
    (h2 : now2 - (registrations sheetId ttl now1 fetch1 c0).cache.t < ttl) :
    registrations sheetId ttl now2 fetch2 (registrations sheetId ttl now1 fetch1 c0).cache
      = ⟨.ok v, (registrations sheetId ttl now1 fetch1 c0).cache, false⟩ := by
  have hdata : (registrations sheetId ttl now1 fetch1 c0).cache.data = some v := by
    unfold registrations at h1 ⊢
    rw [if_neg hsid] at h1 ⊢
    by_cases hc : c0.data.isSome ∧ now1 - c0.t < ttl
    · rw [if_pos hc] at h1 ⊢
      obtain ⟨hs, _⟩ := hc
      cases hd : c0.data with
      | none => rw [hd] at hs; simp at hs
      | some w =>
          simp only [hd, Option.getD] at h1 ⊢
          simpa using h1
    · rw [if_neg hc] at h1 ⊢
      cases fetch1 with
      | err e => simp at h1
      | ok values => simpa using h1
  set c1 := (registrations sheetId ttl now1 fetch1 c0).cache with hc1
  unfold registrations
  rw [if_neg hsid, if_pos ⟨by rw [hdata]; rfl, h2⟩]
  rw [hdata]
  rfl

/-- C1 witness: concrete two-call run at ttl = 30 hitting the cached branch. -/
theorem registrations_cached_second_call_witness :
    registrations "sheet1" 30 10 (.err "down")
        (registrations "sheet1" 30 0 (.ok [["Name"], ["Ada"]]) initCache).cache
      = ⟨.ok ⟨["Name"], [["Ada"]], 1⟩,
         (registrations "sheet1" 30 0 (.ok [["Name"], ["Ada"]]) initCache).cache,
         false⟩ :=
  registrations_cached_second_call "sheet1" 30 0 10 (.ok [["Name"], ["Ada"]])
    (.err "down") initCache ⟨["Name"], [["Ada"]], 1⟩
    (by decide) (by norm_num) (by rfl)
    (by
      have h : (registrations "sheet1" 30 0 (.ok [["Name"], ["Ada"]]) initCache).cache.t
          = 0 := rfl
      rw [h]
      norm_num)

/-- C2: a call that reaches the refresh and whose upstream read raises
leaves the cache exactly as it was and returns the 502 error carrying the
message; the cache is never partially updated. -/
theorem registrations_failed_refresh (sheetId : String) (ttl now : ℚ)
    (e : String) (c : Cache) (hsid : sheetId ≠ "")
    (hmiss : ¬(c.data.isSome ∧ now - c.t < ttl)) :
    registrations sheetId ttl now (.err e) c
      = ⟨.error ⟨502, "Sheets fetch failed: " ++ e⟩, c, true⟩ := by
  unfold registrations
  rw [if_neg hsid, if_neg hmiss]

/-- C2 witness: concrete failed refresh on an expired cache slot. -/
theorem registrations_failed_refresh_witness :
    registrations "sheet1" 30 100 (.err "boom") ⟨0, some ⟨["H"], [], 0⟩⟩
      = ⟨.error ⟨502, "Sheets fetch failed: boom"⟩, ⟨0, some ⟨["H"], [], 0⟩⟩, true⟩ :=
  registrations_failed_refresh "sheet1" 30 100 "boom" ⟨0, some ⟨["H"], [], 0⟩⟩
    (by decide) (by norm_num)

/-- C3: the freshness comparison is strict: at elapsed time exactly ttl the
cached branch is skipped and the upstream block runs. -/
theorem registrations_ttl_boundary (sheetId : String) (ttl now : ℚ)
    (fetch : FetchOutcome) (c : Cache) (hsid : sheetId ≠ "") (_hpos : 0 < ttl)
    (hb : now - c.t = ttl) :
    (registrations sheetId ttl now fetch c).upstreamCalled = true := by
  have hmiss : ¬(c.data.isSome ∧ now - c.t < ttl) := by
    rintro ⟨_, hlt⟩
    rw [hb] at hlt
    exact lt_irrefl _ hlt
  unfold registrations
  rw [if_neg hsid, if_neg hmiss]
  cases fetch <;> rfl

/-- C3 witness: at elapsed time exactly 30 = ttl the refresh runs. -/
theorem registrations_ttl_boundary_witness :
    (registrations "sheet1" 30 35 (.ok []) ⟨5, some ⟨["H"], [], 0⟩⟩).upstreamCalled
      = true :=
  registrations_ttl_boundary "sheet1" 30 35 (.ok []) ⟨5, some ⟨["H"], [], 0⟩⟩
    (by decide) (by norm_num) (by norm_num)

/-- C4: a successful refresh replaces the stored value and the stored
timestamp together, recording the clock reading of the refreshing call, and
a later call inside the ttl window leaves that timestamp untouched, so the
window is measured from the last successful refresh. -/
theorem registrations_success_updates_both (sheetId : String) (ttl now : ℚ)
    (values : List (List String)) (c : Cache) (hsid : sheetId ≠ "")
    (hmiss : ¬(c.data.isSome ∧ now - c.t < ttl)) :
    (registrations sheetId ttl now (.ok values) c).cache
        = ⟨now, some (normalizeValues values)⟩
    ∧ (registrations sheetId ttl now (.ok values) c).res
        = .ok (normalizeValues values)
    ∧ ∀ (now2 : ℚ) (fetch2 : FetchOutcome), now2 - now < ttl →
        (registrations sheetId ttl now2 fetch2
            (registrations sheetId ttl now (.ok values) c).cache).cache.t = now := by
  have hcall : registrations sheetId ttl now (.ok values) c
      = ⟨.ok (normalizeValues values), ⟨now, some (normalizeValues values)⟩, true⟩ := by
    unfold registrations
    rw [if_neg hsid, if_neg hmiss]
  refine ⟨by rw [hcall], by rw [hcall], ?_⟩
  intro now2 fetch2 hwin
  rw [hcall]
  unfold registrations
  rw [if_neg hsid, if_pos ⟨rfl, by simpa using hwin⟩]

/-- C4 witness: concrete successful refresh at time 7 followed by a call at
time 20 inside the window. -/
theorem registrations_success_updates_both_witness :
    (registrations "sheet1" 30 7 (.ok [["Name"], ["Ada"]]) initCache).cache
        = ⟨7, some ⟨["Name"], [["Ada"]], 1⟩⟩
    ∧ (registrations "sheet1" 30 7 (.ok [["Name"], ["Ada"]]) initCache).res
        = .ok ⟨["Name"], [["Ada"]], 1⟩
    ∧ (registrations "sheet1" 30 20 (.err "down")
          (registrations "sheet1" 30 7 (.ok [["Name"], ["Ada"]]) initCache).cache).cache.t
        = 7 := by
  obtain ⟨h1, h2, h3⟩ := registrations_success_updates_both "sheet1" 30 7
    [["Name"], ["Ada"]] initCache (by decide) (by norm_num [initCache])
  exact ⟨h1, h2, h3 20 (.err "down") (by norm_num)⟩

/-- C5: credential sources are checked in the fixed order file path, base64,
inline JSON; the first present (set and non-empty) source fully determines
the outcome, so a malformed first source propagates its failure and later
sources are never consulted; with no present source the resolution fails
with the no-credentials error. -/
theorem sheets_service_order {α : Type} (env : CredEnv)
    (fromFile fromB64 fromInline : String → Except String α) :
    (envPresent env.filePath = true →
        sheets_service env fromFile fromB64 fromInline
          = (fromFile (env.filePath.getD "")).mapError .parseFailure)
    ∧ (envPresent env.filePath = false → envPresent env.b64 = true →
        sheets_service env fromFile fromB64 fromInline
          = (fromB64 (env.b64.getD "")).mapError .parseFailure)
    ∧ (envPresent env.filePath = false → envPresent env.b64 = false →
        envPresent env.inlineJson = true →
        sheets_service env fromFile fromB64 fromInline
          = (fromInline (env.inlineJson.getD "")).mapError .parseFailure)
    ∧ (envPresent env.filePath = false → envPresent env.b64 = false →
        envPresent env.inlineJson = false →
        sheets_service env fromFile fromB64 fromInline = .error .noCredentials) := by
  refine ⟨fun h1 => ?_, fun h1 h2 => ?_, fun h1 h2 h3 => ?_, fun h1 h2 h3 => ?_⟩
  · unfold sheets_service
    simp only [h1, if_true]
    cases fromFile (env.filePath.getD "") <;> rfl
  · unfold sheets_service
    simp only [h1, h2, Bool.false_eq_true, if_false, if_true]
    cases fromB64 (env.b64.getD "") <;> rfl
  · unfold sheets_service
    simp only [h1, h2, h3, Bool.false_eq_true, if_false, if_true]
    cases fromInline (env.inlineJson.getD "") <;> rfl
  · unfold sheets_service
    simp only [h1, h2, h3, Bool.false_eq_true, if_false]

/-- C5 witness: concrete runs for each precedence case, including a
malformed first source whose parse failure propagates. -/
theorem sheets_service_order_witness :
    sheets_service ⟨some "creds.json", some "QkxPQg==", none⟩
        (fun _ => .ok 1) (fun _ => .ok 2) (fun _ => .ok 3) = .ok 1
    ∧ sheets_service ⟨some "creds.json", some "QkxPQg==", some "ij"⟩
        (fun _ => .error "bad file") (fun _ => .ok 2) (fun _ => .ok 3)
        = .error (.parseFailure "bad file")
    ∧ sheets_service ⟨none, some "QkxPQg==", some "ij"⟩
        (fun _ => .ok 1) (fun _ => .ok 2) (fun _ => .ok 3) = .ok 2
    ∧ sheets_service ⟨some "", none, some "ij"⟩
        (fun _ => .ok 1) (fun _ => .ok 2) (fun _ => .ok 3) = .ok 3
    ∧ sheets_service (α := Nat) ⟨none, some "", none⟩
        (fun _ => .ok 1) (fun _ => .ok 2) (fun _ => .ok 3)
        = .error .noCredentials :=
  ⟨((sheets_service_order ⟨some "creds.json", some "QkxPQg==", none⟩
      (fun _ => .ok 1) (fun _ => .ok 2) (fun _ => .ok 3)).1 (by decide)).trans rfl,
   ((sheets_service_order ⟨some "creds.json", some "QkxPQg==", some "ij"⟩
      (fun _ => .error "bad file") (fun _ => .ok 2) (fun _ => .ok 3)).1
        (by decide)).trans rfl,
   ((sheets_service_order ⟨none, some "QkxPQg==", some "ij"⟩
      (fun _ => .ok 1) (fun _ => .ok 2) (fun _ => .ok 3)).2.1
        (by decide) (by decide)).trans rfl,
   ((sheets_service_order ⟨some "", none, some "ij"⟩
      (fun _ => .ok 1) (fun _ => .ok 2) (fun _ => .ok 3)).2.2.1
        (by decide) (by decide) (by decide)).trans rfl,
   (sheets_service_order ⟨none, some "", none⟩
      (fun _ => .ok 1) (fun _ => .ok 2) (fun _ => .ok 3)).2.2.2
        (by decide) (by decide) (by decide)⟩

/-- C6: with no spreadsheet id configured the handler returns the fixed
empty shape as a success, touches neither the cache nor any external
service, and never reaches credential resolution. -/
theorem registrations_no_sheet_id (ttl now : ℚ) (fetch : FetchOutcome) (c : Cache) :
    registrations "" ttl now fetch c = ⟨.ok ⟨[], [], 0⟩, c, false⟩ := by
  unfold registrations
  rw [if_pos rfl]

/-- C7: a non-empty values list maps its first row to headers, the rest to
rows, and count to the number of remaining rows; every produced payload
satisfies count = length rows; the spec example evaluates as stated. -/
theorem normalizeValues_spec :
    (∀ (h : List String) (t : List (List String)),
        normalizeValues (h :: t) = ⟨h, t, t.length⟩)
    ∧ (∀ values : List (List String),
        (normalizeValues values).count = (normalizeValues values).rows.length)
    ∧ normalizeValues [["Name", "Age"], ["Ada", "30"], ["Li", "25"]]
        = ⟨["Name", "Age"], [["Ada", "30"], ["Li", "25"]], 2⟩ := by
  refine ⟨fun h t => rfl, fun values => ?_, rfl⟩
  cases values <;> rfl

/-- C8 counterexample: with the photos bucket unset, a text/plain upload is
answered 500 (bucket not configured), not 400, so the unconditional claim
fails; no storage call happens either way. -/
theorem upload_photo_nonimage_cex :
    (upload_photo "" (some "text/plain") "k" (.ok "u")).res
      = .error ⟨500, "PHOTOS_BUCKET not set"⟩
    ∧ (upload_photo "" (some "text/plain") "k" (.ok "u")).res
      ≠ .error ⟨400, "Only image uploads allowed"⟩
    ∧ (upload_photo "" (some "text/plain") "k" (.ok "u")).storageCalled = false := by
  refine ⟨rfl, ?_, rfl⟩
  intro h
  have h0 : (upload_photo "" (some "text/plain") "k" (.ok "u")).res
      = .error ⟨500, "PHOTOS_BUCKET not set"⟩ := rfl
  rw [h0] at h
  injection h with h
  exact absurd (congrArg HErr.status h) (by decide)

/-- C8 amended: with the photos bucket configured, a request whose content
type fails the image guard gets exactly the 400 response and no storage
call is performed. -/
theorem upload_photo_nonimage_400 (bucketName : String) (contentType : Option String)
    (key : String) (u : Except String String) (hb : bucketName ≠ "")
    (hct : imageContentTypeOk contentType = false) :
    upload_photo bucketName contentType key u
      = ⟨.error ⟨400, "Only image uploads allowed"⟩, false⟩ := by
  unfold upload_photo
  rw [if_neg hb, hct]
  rfl

/-- C8 witness: a text/plain upload on a configured bucket is rejected with
400 and no storage call. -/
theorem upload_photo_nonimage_400_witness :
    upload_photo "club-photos" (some "text/plain") "k" (.ok "u")
      = ⟨.error ⟨400, "Only image uploads allowed"⟩, false⟩ :=
  upload_photo_nonimage_400 "club-photos" (some "text/plain") "k" (.ok "u")
    (by decide) (by decide)

/-- Helper for C9: the listing loop never grows past the limit once the
accumulator is strictly below it. -/
theorem photosLoop_length_le (bucketName : String) (limit : Int) :
    ∀ (blobs urls : List String),
      (urls.length : Int) < limit →
      ((photosLoop bucketName limit blobs urls).length : Int) ≤ limit := by
  intro blobs
  induction blobs with
  | nil =>
      intro urls h
      unfold photosLoop
      exact le_of_lt h
  | cons b bs ih =>
      intro urls h
      unfold photosLoop
      by_cases hd : pyEndsWith b "/" = true
      · rw [if_pos hd]
        exact ih urls h
      · rw [if_neg hd]
        by_cases hl : limit ≤ (((urls ++ [blobUrl bucketName b]).length : Nat) : Int)
        · rw [if_pos hl]
          simp only [List.length_append, List.length_cons, List.length_nil]
          push_cast
          omega
        · rw [if_neg hl]
          exact ih _ (lt_of_not_le hl)

/-- Helper for C9: everything the loop returns is either already in the
accumulator or the URL of a listed blob whose name does not end in a slash. -/
theorem photosLoop_mem (bucketName : String) (limit : Int) :
    ∀ (blobs urls : List String) (u : String),
      u ∈ photosLoop bucketName limit blobs urls →
      u ∈ urls ∨ ∃ b ∈ blobs, pyEndsWith b "/" = false ∧ u = blobUrl bucketName b := by
  intro blobs
  induction blobs with
  | nil =>
      intro urls u h
      unfold photosLoop at h
      exact Or.inl h
  | cons b bs ih =>
      intro urls u h
      unfold photosLoop at h
      by_cases hd : pyEndsWith b "/" = true
      · rw [if_pos hd] at h
        rcases ih urls u h with h1 | ⟨b2, hb2, hnd, he⟩
        · exact Or.inl h1
        · exact Or.inr ⟨b2, List.mem_cons_of_mem _ hb2, hnd, he⟩
      · have hd2 : pyEndsWith b "/" = false := by simpa using hd
        rw [if_neg hd] at h
        by_cases hl : limit ≤ (((urls ++ [blobUrl bucketName b]).length : Nat) : Int)
        · rw [if_pos hl] at h
          rcases List.mem_append.mp h with h1 | h1
          · exact Or.inl h1
          · exact Or.inr ⟨b, List.mem_cons_self b bs, hd2, by simpa using h1⟩
        · rw [if_neg hl] at h
          rcases ih _ u h with h1 | ⟨b2, hb2, hnd, he⟩
          · rcases List.mem_append.mp h1 with h2 | h2
            · exact Or.inl h2
            · exact Or.inr ⟨b, List.mem_cons_self b bs, hd2, by simpa using h2⟩
          · exact Or.inr ⟨b2, List.mem_cons_of_mem _ hb2, hnd, he⟩

/-- C9 counterexample: with limit 0 the handler still returns one URL,
because the loop appends before comparing the length against the limit, so
the returned list is not bounded by the requested limit. -/
theorem list_photos_limit_cex :
    list_photos "b" 0 (.ok ["uploads/a.jpg"])
      = .ok ["https://storage.googleapis.com/b/uploads/a.jpg"]
    ∧ ¬((["https://storage.googleapis.com/b/uploads/a.jpg"].length : Int) ≤ 0) := by
  constructor
  · rfl
  · decide

/-- C9 amended: with a configured bucket and a requested limit of at least
one, the returned list holds at most limit URLs and each of them is the URL
of a listed blob whose name does not end in a slash, so directory entries
are never counted or returned. -/
theorem list_photos_limit_bound (bucketName : String) (limit : Int)
    (blobs : List String) (hb : bucketName ≠ "") (hl : 1 ≤ limit) :
    list_photos bucketName limit (.ok blobs)
        = .ok (photosLoop bucketName limit blobs [])
    ∧ ((photosLoop bucketName limit blobs []).length : Int) ≤ limit
    ∧ ∀ u ∈ photosLoop bucketName limit blobs [],
        ∃ b ∈ blobs, pyEndsWith b "/" = false ∧ u = blobUrl bucketName b := by
  refine ⟨?_, ?_, ?_⟩
  · unfold list_photos
    rw [if_neg hb]
  · refine photosLoop_length_le bucketName limit blobs [] ?_
    simp only [List.length_nil, Nat.cast_zero]
    omega
  · intro u hu
    rcases photosLoop_mem bucketName limit blobs [] u hu with h1 | h2
    · simp at h1
    · exact h2

/-- C9 witness: concrete listing with limit 60 and one directory entry. -/
theorem list_photos_limit_bound_witness :
    list_photos "b" 60 (.ok ["uploads/x.jpg", "uploads/"])
        = .ok (photosLoop "b" 60 ["uploads/x.jpg", "uploads/"] [])
    ∧ ((photosLoop "b" 60 ["uploads/x.jpg", "uploads/"] []).length : Int) ≤ 60
    ∧ ∀ u ∈ photosLoop "b" 60 ["uploads/x.jpg", "uploads/"] [],
        ∃ b ∈ ["uploads/x.jpg", "uploads/"],
          pyEndsWith b "/" = false ∧ u = blobUrl "b" b :=
  list_photos_limit_bound "b" 60 ["uploads/x.jpg", "uploads/"] (by decide) (by decide)

/-- C10: with the sheet configured, a successful upstream read returning no
rows stores the empty shape in the cache like any success and returns it,
and a later call inside the ttl window serves that same empty shape from the
cache without running the upstream block. -/
theorem registrations_empty_values_cached (sheetId : String) (ttl now now2 : ℚ)
    (fetch2 : FetchOutcome) (c : Cache) (hsid : sheetId ≠ "")
    (hmiss : ¬(c.data.isSome ∧ now - c.t < ttl)) :
    registrations sheetId ttl now (.ok []) c
        = ⟨.ok ⟨[], [], 0⟩, ⟨now, some ⟨[], [], 0⟩⟩, true⟩
    ∧ (now2 - now < ttl →
        registrations sheetId ttl now2 fetch2 ⟨now, some ⟨[], [], 0⟩⟩
          = ⟨.ok ⟨[], [], 0⟩, ⟨now, some ⟨[], [], 0⟩⟩, false⟩) := by
  constructor
  · unfold registrations
    rw [if_neg hsid, if_neg hmiss]
    rfl
  · intro hwin
    unfold registrations
    rw [if_neg hsid, if_pos ⟨rfl, by simpa using hwin⟩]
    rfl

/-- C10 witness: empty read at time 5 populates the cache; a call at time 25
is served from the cache with the empty shape and no upstream call. -/
theorem registrations_empty_values_cached_witness :
    registrations "sheet1" 30 5 (.ok []) initCache
        = ⟨.ok ⟨[], [], 0⟩, ⟨5, some ⟨[], [], 0⟩⟩, true⟩
    ∧ registrations "sheet1" 30 25 (.err "down") ⟨5, some ⟨[], [], 0⟩⟩
        = ⟨.ok ⟨[], [], 0⟩, ⟨5, some ⟨[], [], 0⟩⟩, false⟩ := by
  obtain ⟨h1, h2⟩ := registrations_empty_values_cached "sheet1" 30 5 25 (.err "down")
    initCache (by decide) (by norm_num [initCache])
  exact ⟨h1, h2 (by norm_num)⟩
